import Mathlib

/-!
# The SPIRE consumer example: token refresh

A shallow embedding of `examples/spire_consumer_example/spire_consumer_example.go`:
the two functions `retrieveJWTToken` and `handleJWTTokenRefreshEvent`, and the
refresh case of the polling loop of `main`.

The collaborators of the example (the SPIFFE workload API, the Kafka client
handle, the clock read by `context.WithTimeout`) are parameters.  Every call
the example makes on a collaborator is recorded, in order, in a trace of
`Event`s, so that "is called exactly once", "is never called" and "before any
call" are statements about that trace.  A Go function either returns or
panics; `Outcome` keeps the two apart.
-/

namespace SpireConsumerExample

/-! ## Values -/

/-- A Go `error` value, represented by the text its `Error()` method returns.
A nil `error` is `none : Option GoError`. -/
abbrev GoError := String

/-- Instants (`time.Time`) and durations (`time.Duration`), in nanoseconds;
instants are counted from the zero value of `time.Time`. -/
abbrev Time := Int

/-- The duration `time.Second`. -/
def Second : Time := 1000000000

/-- A `context.Context`, as far as the example uses it: its deadline, if any. -/
structure Context where
  deadline : Option Time
deriving DecidableEq, Repr

/-- The context `context.Background()`: no deadline. -/
def Background : Context := ⟨none⟩

/-- The context `context.WithTimeout(parent, timeout)` returns when the clock
reads `now`: the deadline is `now + timeout`, unless the parent already has
an earlier one. -/
def WithTimeout (now : Time) (parent : Context) (timeout : Time) : Context :=
  match parent.deadline with
  | some cur => if cur < now + timeout then parent else ⟨some (now + timeout)⟩
  | none => ⟨some (now + timeout)⟩

/-- The struct `jwtsvid.Params`, the request of `FetchJWTSVID`.  `Subject` is
a SPIFFE ID, written as its string; the zero value is the empty string. -/
structure Params where
  Audience : String
  ExtraAudiences : List String
  Subject : String
deriving DecidableEq, Repr

/-- The credential `jwtsvid.SVID`, as far as the example reads it: the
serialized token and the expiry. -/
structure SVID where
  token : String
  Expiry : Time
deriving DecidableEq, Repr

/-- The method `(*jwtsvid.SVID).Marshal`: the serialized form of the credential. -/
def SVID.Marshal (s : SVID) : String := s.token

/-- Modelled from the spec: the struct `kafka.OAuthBearerToken` of the
repository's `kafka` package, which is not among the sources; the spec's Token
with its four fields (value, expiry, principal, extensions), under the field
names the example assigns.  The Go map of extensions is an association list
in the order of the map literal. -/
structure OAuthBearerToken where
  TokenValue : String
  Expiration : Time
  Principal : String
  Extensions : List (String × String)
deriving DecidableEq, Repr

/-- The zero value `kafka.OAuthBearerToken{}`. -/
def OAuthBearerToken.zero : OAuthBearerToken := ⟨"", 0, "", []⟩

/-! ## Effects -/

/-- The calls the example makes on its collaborators. -/
inductive Event where
  | Stderr (text : String)
  | NewJWTSource (ctx : Context) (addr : String)
  | FetchJWTSVID (ctx : Context) (params : Params)
  | Close
  | cancel
  | SetOAuthBearerToken (token : OAuthBearerToken)
  | SetOAuthBearerTokenFailure (reason : String)
deriving DecidableEq, Repr

/-- How a Go function call ends: it returns a value, or a panic leaves it. -/
inductive Outcome (α : Type) where
  | returned (value : α)
  | panicked (reason : String)
deriving DecidableEq, Repr

/-- One run of a Go function: the calls it made, in order, and how it ended. -/
structure Run (α : Type) where
  trace : List Event
  outcome : Outcome α

/-- A non-nil Go value of type `func() error`: the calls it makes when it is
invoked and the error it returns. -/
structure GoFunc where
  effects : List Event
  result : Option GoError
deriving DecidableEq, Repr

/-! ## Collaborators -/

/-- A `*workloadapi.JWTSource`: what `FetchJWTSVID` answers to a request, and
the error `Close` returns. -/
structure JWTSource where
  FetchJWTSVID : Context → Params → Except GoError SVID
  CloseResult : Option GoError

/-- The method value `jwtSource.Close`. -/
def JWTSource.Close (s : JWTSource) : GoFunc := ⟨[Event.Close], s.CloseResult⟩

/-- The SPIFFE workload API: what `workloadapi.NewJWTSource` answers for a
context and a socket address. -/
structure WorkloadAPI where
  NewJWTSource : Context → String → Except GoError JWTSource

/-- Modelled from the spec: the interface `kafka.Handle` of the repository's
`kafka` package, which is not among the sources; its two token methods, the
spec's `onTokenSuccess` and `onTokenFailure`, each with the error it returns. -/
structure Handle where
  SetOAuthBearerToken : OAuthBearerToken → Option GoError
  SetOAuthBearerTokenFailure : String → Option GoError

/-! ## The example -/

/-- The map literal of lines 77-80. -/
def extensions : List (String × String) :=
  [("logicalCluster", "lkc-0yoqvq"), ("identityPoolId", "pool-W9j5")]

/-- The function `retrieveJWTToken` (lines 53-89).  `now` is the clock reading
of `context.WithTimeout`.  The result is the triple (token, closer, error);
a nil closer is `none`.  The deferred calls run when the function is left, last
deferred first: `jwtSource.Close()` (line 65, deferred only once the source
exists), then `cancel()` (line 55). -/
def retrieveJWTToken (now : Time) (api : WorkloadAPI) (ctx : Context)
    (principal socketPath : String) (audience : List String) :
    Run (OAuthBearerToken × Option GoFunc × Option GoError) :=
  let ctx := WithTimeout now ctx Second
  match api.NewJWTSource ctx socketPath with
  | .error err =>
    { trace := [.NewJWTSource ctx socketPath, .cancel]
      outcome := .returned
        (OAuthBearerToken.zero, none, some ("unable to create JWTSource: " ++ err)) }
  | .ok jwtSource =>
    match audience with
    | [] =>
      { trace := [.NewJWTSource ctx socketPath] ++ jwtSource.Close.effects ++ [.cancel]
        outcome := .panicked "runtime error: index out of range [0] with length 0" }
    | audience0 :: _ =>
      let params : Params := { Audience := audience0, ExtraAudiences := [], Subject := "" }
      match jwtSource.FetchJWTSVID ctx params with
      | .error err =>
        { trace := [.NewJWTSource ctx socketPath, .FetchJWTSVID ctx params]
            ++ jwtSource.Close.effects ++ [.cancel]
          outcome := .returned
            (OAuthBearerToken.zero, none, some ("unable to fetch JWT SVID: " ++ err)) }
      | .ok jwtSVID =>
        let oauthBearerToken : OAuthBearerToken :=
          { TokenValue := jwtSVID.Marshal
            Expiration := jwtSVID.Expiry
            Principal := principal
            Extensions := extensions }
        { trace := [.NewJWTSource ctx socketPath, .FetchJWTSVID ctx params]
            ++ jwtSource.Close.effects ++ [.cancel]
          outcome := .returned (oauthBearerToken, some jwtSource.Close, none) }

/-- The function `handleJWTTokenRefreshEvent` (lines 37-51).  A panic of
`retrieveJWTToken` leaves the handler before `defer closer()` is reached.
Otherwise the deferred `closer()` of line 40 runs when the body is done;
calling a nil function value panics. -/
def handleJWTTokenRefreshEvent (now : Time) (api : WorkloadAPI) (ctx : Context)
    (client : Handle) (principal socketPath : String) (audience : List String) :
    Run Unit :=
  let r := retrieveJWTToken now api ctx principal socketPath audience
  match r.outcome with
  | .panicked reason =>
    { trace := [.Stderr "Token refresh\n"] ++ r.trace
      outcome := .panicked reason }
  | .returned (oauthBearerToken, closer, retrieveErr) =>
    let body : List Event :=
      match retrieveErr with
      | some retrieveErr =>
        [.Stderr ("% Token retrieval error: " ++ retrieveErr ++ "\n"),
         .SetOAuthBearerTokenFailure retrieveErr]
      | none =>
        match client.SetOAuthBearerToken oauthBearerToken with
        | some setTokenError =>
          [.SetOAuthBearerToken oauthBearerToken,
           .Stderr ("% Error setting token and extensions: " ++ setTokenError ++ "\n"),
           .SetOAuthBearerTokenFailure setTokenError]
        | none => [.SetOAuthBearerToken oauthBearerToken]
    match closer with
    | none =>
      { trace := [.Stderr "Token refresh\n"] ++ r.trace ++ body
        outcome := .panicked
          "runtime error: invalid memory address or nil pointer dereference" }
    | some closer =>
      { trace := [.Stderr "Token refresh\n"] ++ r.trace ++ body ++ closer.effects
        outcome := .returned () }

/-- The audience list of `main` (line 101). -/
def mainAudience : List String := ["audience1", "audience2"]

/-- The case `kafka.OAuthBearerTokenRefresh` of the polling loop of `main`
(lines 155-156): the handler is called with `context.Background()` and the
audience list of line 101; `main` recovers from no panic. -/
def mainRefreshCase (now : Time) (api : WorkloadAPI) (c : Handle)
    (principal socketPath : String) : Run Unit :=
  handleJWTTokenRefreshEvent now api Background c principal socketPath mainAudience

/-! ## Reading a trace -/

/-- The calls of a trace that are made on the Kafka client. -/
def clientCalls (tr : List Event) : List Event :=
  tr.filter fun
    | .SetOAuthBearerToken _ => true
    | .SetOAuthBearerTokenFailure _ => true
    | _ => false

/-- The calls of a trace that are made on the identity provider. -/
def providerCalls (tr : List Event) : List Event :=
  tr.filter fun
    | .NewJWTSource _ _ => true
    | .FetchJWTSVID _ _ => true
    | _ => false

/-- The credential requests of a trace, in order. -/
def fetchRequests (tr : List Event) : List Params :=
  tr.filterMap fun
    | .FetchJWTSVID _ params => some params
    | _ => none

/-- The tokens a trace hands to the Kafka client, in order. -/
def deliveredTokens (tr : List Event) : List OAuthBearerToken :=
  tr.filterMap fun
    | .SetOAuthBearerToken token => some token
    | _ => none

/-- How often the JWT source is closed in a trace. -/
def closeCount (tr : List Event) : Nat := tr.count Event.Close

/-! ## Test doubles -/

/-- A source that issues the credential `(v, e)` for every request. -/
def issuingSource (v : String) (e : Time) : JWTSource :=
  { FetchJWTSVID := fun _ _ => .ok ⟨v, e⟩, CloseResult := none }

/-- A provider whose source issues the credential `(v, e)`. -/
def issuingAPI (v : String) (e : Time) : WorkloadAPI :=
  { NewJWTSource := fun _ _ => .ok (issuingSource v e) }

/-- A provider to which no connection can be made: creating the source fails
with the error `cause`. -/
def unreachableAPI (cause : GoError) : WorkloadAPI :=
  { NewJWTSource := fun _ _ => .error cause }

/-- A provider whose source answers every request with the error `cause`. -/
def failingFetchAPI (cause : GoError) : WorkloadAPI :=
  { NewJWTSource := fun _ _ =>
      .ok { FetchJWTSVID := fun _ _ => .error cause, CloseResult := none } }

/-- A client that accepts every token. -/
def acceptingClient : Handle :=
  { SetOAuthBearerToken := fun _ => none, SetOAuthBearerTokenFailure := fun _ => none }

/-- A client that refuses every token with the error `why`. -/
def refusingClient (why : GoError) : Handle :=
  { SetOAuthBearerToken := fun _ => some why, SetOAuthBearerTokenFailure := fun _ => none }

/-! ## Lemmas on the trace of `retrieveJWTToken` -/

/-- The run of `retrieveJWTToken` when the source cannot be created. -/
theorem retrieveJWTToken_of_create_error (now : Time) (api : WorkloadAPI) (ctx : Context)
    (principal socketPath : String) (audience : List String) (cause : GoError)
    (hnew : api.NewJWTSource (WithTimeout now ctx Second) socketPath = .error cause) :
    retrieveJWTToken now api ctx principal socketPath audience =
      { trace := [.NewJWTSource (WithTimeout now ctx Second) socketPath, .cancel]
        outcome := .returned
          (OAuthBearerToken.zero, none, some ("unable to create JWTSource: " ++ cause)) } := by
  simp [retrieveJWTToken, hnew]

/-- The run of `retrieveJWTToken` when the source exists and the fetch fails. -/
theorem retrieveJWTToken_of_fetch_error (now : Time) (api : WorkloadAPI) (ctx : Context)
    (principal socketPath audience0 : String) (rest : List String)
    (jwtSource : JWTSource) (cause : GoError)
    (hnew : api.NewJWTSource (WithTimeout now ctx Second) socketPath = .ok jwtSource)
    (hfetch : jwtSource.FetchJWTSVID (WithTimeout now ctx Second)
      { Audience := audience0, ExtraAudiences := [], Subject := "" } = .error cause) :
    retrieveJWTToken now api ctx principal socketPath (audience0 :: rest) =
      { trace := [.NewJWTSource (WithTimeout now ctx Second) socketPath,
          .FetchJWTSVID (WithTimeout now ctx Second)
            { Audience := audience0, ExtraAudiences := [], Subject := "" },
          .Close, .cancel]
        outcome := .returned
          (OAuthBearerToken.zero, none, some ("unable to fetch JWT SVID: " ++ cause)) } := by
  simp [retrieveJWTToken, hnew, hfetch, JWTSource.Close]

/-- The run of `retrieveJWTToken` when the source exists and the fetch succeeds. -/
theorem retrieveJWTToken_of_fetch_ok (now : Time) (api : WorkloadAPI) (ctx : Context)
    (principal socketPath audience0 : String) (rest : List String)
    (jwtSource : JWTSource) (jwtSVID : SVID)
    (hnew : api.NewJWTSource (WithTimeout now ctx Second) socketPath = .ok jwtSource)
    (hfetch : jwtSource.FetchJWTSVID (WithTimeout now ctx Second)
      { Audience := audience0, ExtraAudiences := [], Subject := "" } = .ok jwtSVID) :
    retrieveJWTToken now api ctx principal socketPath (audience0 :: rest) =
      { trace := [.NewJWTSource (WithTimeout now ctx Second) socketPath,
          .FetchJWTSVID (WithTimeout now ctx Second)
            { Audience := audience0, ExtraAudiences := [], Subject := "" },
          .Close, .cancel]
        outcome := .returned
          ({ TokenValue := jwtSVID.Marshal, Expiration := jwtSVID.Expiry,
             Principal := principal, Extensions := extensions },
           some jwtSource.Close, none) } := by
  simp [retrieveJWTToken, hnew, hfetch, JWTSource.Close]

/-- The run of `retrieveJWTToken` when the source exists and the audience list
is empty. -/
theorem retrieveJWTToken_of_empty_audience (now : Time) (api : WorkloadAPI) (ctx : Context)
    (principal socketPath : String) (jwtSource : JWTSource)
    (hnew : api.NewJWTSource (WithTimeout now ctx Second) socketPath = .ok jwtSource) :
    retrieveJWTToken now api ctx principal socketPath [] =
      { trace := [.NewJWTSource (WithTimeout now ctx Second) socketPath, .Close, .cancel]
        outcome := .panicked "runtime error: index out of range [0] with length 0" } := by
  simp [retrieveJWTToken, hnew, JWTSource.Close]

/-- The trace of `retrieveJWTToken` holds no call on the Kafka client. -/
theorem clientCalls_retrieveJWTToken (now : Time) (api : WorkloadAPI) (ctx : Context)
    (principal socketPath : String) (audience : List String) :
    clientCalls (retrieveJWTToken now api ctx principal socketPath audience).trace = [] := by
  cases hnew : api.NewJWTSource (WithTimeout now ctx Second) socketPath with
  | error err =>
    rw [retrieveJWTToken_of_create_error now api ctx principal socketPath audience err hnew]
    rfl
  | ok jwtSource =>
    cases audience with
    | nil =>
      rw [retrieveJWTToken_of_empty_audience now api ctx principal socketPath jwtSource hnew]
      rfl
    | cons audience0 rest =>
      cases hfetch : jwtSource.FetchJWTSVID (WithTimeout now ctx Second)
          { Audience := audience0, ExtraAudiences := [], Subject := "" } with
      | error err =>
        rw [retrieveJWTToken_of_fetch_error now api ctx principal socketPath audience0 rest
          jwtSource err hnew hfetch]
        rfl
      | ok jwtSVID =>
        rw [retrieveJWTToken_of_fetch_ok now api ctx principal socketPath audience0 rest
          jwtSource jwtSVID hnew hfetch]
        rfl

/-- A list whose `head?` is known is a cons. -/
theorem eq_cons_of_head? {α : Type} {l : List α} {a : α} (h : l.head? = some a) :
    ∃ rest, l = a :: rest := by
  cases l with
  | nil => simp at h
  | cons b rest =>
    simp at h
    exact ⟨rest, by rw [h]⟩

/-! ## Lemmas on the run of `handleJWTTokenRefreshEvent` -/

/-- The run of the handler when `retrieveJWTToken` returns an error: the
failure is reported, and the deferred call of the nil closer panics. -/
theorem handle_of_retrieve_error (now : Time) (api : WorkloadAPI) (ctx : Context)
    (client : Handle) (principal socketPath : String) (audience : List String)
    (tr : List Event) (token : OAuthBearerToken) (msg : GoError)
    (hret : retrieveJWTToken now api ctx principal socketPath audience =
      { trace := tr, outcome := .returned (token, none, some msg) }) :
    handleJWTTokenRefreshEvent now api ctx client principal socketPath audience =
      { trace := [.Stderr "Token refresh\n"] ++ tr ++
          [.Stderr ("% Token retrieval error: " ++ msg ++ "\n"),
           .SetOAuthBearerTokenFailure msg]
        outcome := .panicked
          "runtime error: invalid memory address or nil pointer dereference" } := by
  simp [handleJWTTokenRefreshEvent, hret]

/-- The run of the handler when `retrieveJWTToken` returns a token and a
closer: the token is handed to the client, a refusal is reported, and the
deferred closer runs. -/
theorem handle_of_retrieve_ok (now : Time) (api : WorkloadAPI) (ctx : Context)
    (client : Handle) (principal socketPath : String) (audience : List String)
    (tr : List Event) (token : OAuthBearerToken) (closer : GoFunc)
    (hret : retrieveJWTToken now api ctx principal socketPath audience =
      { trace := tr, outcome := .returned (token, some closer, none) }) :
    handleJWTTokenRefreshEvent now api ctx client principal socketPath audience =
      { trace := [.Stderr "Token refresh\n"] ++ tr ++
          (match client.SetOAuthBearerToken token with
           | some setTokenError =>
             [.SetOAuthBearerToken token,
              .Stderr ("% Error setting token and extensions: " ++ setTokenError ++ "\n"),
              .SetOAuthBearerTokenFailure setTokenError]
           | none => [.SetOAuthBearerToken token]) ++ closer.effects
        outcome := .returned () } := by
  simp [handleJWTTokenRefreshEvent, hret]

/-- The run of the handler when `retrieveJWTToken` panics. -/
theorem handle_of_retrieve_panic (now : Time) (api : WorkloadAPI) (ctx : Context)
    (client : Handle) (principal socketPath : String) (audience : List String)
    (tr : List Event) (reason : String)
    (hret : retrieveJWTToken now api ctx principal socketPath audience =
      { trace := tr, outcome := .panicked reason }) :
    handleJWTTokenRefreshEvent now api ctx client principal socketPath audience =
      { trace := [.Stderr "Token refresh\n"] ++ tr, outcome := .panicked reason } := by
  simp [handleJWTTokenRefreshEvent, hret]

/-! ## The claims -/

/-- C1: for every principal, every non-empty audience list (first element `a`)
and every provider for which creating the JWT source succeeds and
`FetchJWTSVID` returns a credential with serialized form `v` and expiry `e`,
`retrieveJWTToken` returns a nil error and a token with `TokenValue = v`,
`Expiration = e`, `Principal` the principal argument, and `Extensions` exactly
the two entries `logicalCluster` and `identityPoolId`. -/
theorem retrieveJWTToken_success_token (now : Time) (api : WorkloadAPI) (ctx : Context)
    (principal socketPath : String) (audience : List String) (a : String)
    (jwtSource : JWTSource) (jwtSVID : SVID) (v : String) (e : Time)
    (haud : audience.head? = some a)
    (hnew : api.NewJWTSource (WithTimeout now ctx Second) socketPath = .ok jwtSource)
    (hfetch : jwtSource.FetchJWTSVID (WithTimeout now ctx Second)
      { Audience := a, ExtraAudiences := [], Subject := "" } = .ok jwtSVID)
    (hv : jwtSVID.Marshal = v) (he : jwtSVID.Expiry = e) :
    ∃ token closer,
      (retrieveJWTToken now api ctx principal socketPath audience).outcome =
        .returned (token, closer, none) ∧
      token.TokenValue = v ∧ token.Expiration = e ∧ token.Principal = principal ∧
      token.Extensions =
        [("logicalCluster", "lkc-0yoqvq"), ("identityPoolId", "pool-W9j5")] := by
  obtain ⟨rest, rfl⟩ := eq_cons_of_head? haud
  rw [retrieveJWTToken_of_fetch_ok now api ctx principal socketPath a rest jwtSource jwtSVID
    hnew hfetch]
  exact ⟨_, _, rfl, hv, he, rfl, rfl⟩

/-- Scenario A of the spec, an instance of C1: principal `svc-a`, audience
`aud1, aud2`, credential `tok123` expiring 3600 s after the start. -/
theorem retrieveJWTToken_success_token_witness :
    ∃ token closer,
      (retrieveJWTToken 0 (issuingAPI "tok123" (3600 * Second)) Background
        "svc-a" "/tmp/agent.sock" ["aud1", "aud2"]).outcome =
        .returned (token, closer, none) ∧
      token.TokenValue = "tok123" ∧ token.Expiration = 3600 * Second ∧
      token.Principal = "svc-a" ∧
      token.Extensions =
        [("logicalCluster", "lkc-0yoqvq"), ("identityPoolId", "pool-W9j5")] :=
  retrieveJWTToken_success_token 0 (issuingAPI "tok123" (3600 * Second)) Background
    "svc-a" "/tmp/agent.sock" ["aud1", "aud2"] "aud1"
    (issuingSource "tok123" (3600 * Second)) ⟨"tok123", 3600 * Second⟩ "tok123"
    (3600 * Second) rfl rfl rfl rfl rfl

/-- C2: when the handler runs with a non-empty audience list and the provider
fails, the only call on the client is one `SetOAuthBearerTokenFailure`
(`SetOAuthBearerToken` is not called); its reason is
`unable to create JWTSource: ` followed by the cause when creating the source
failed, so it contains `unable to create`, and `unable to fetch JWT SVID: `
followed by the cause when the fetch failed. -/
theorem handle_provider_failure_reported_once (now : Time) (api : WorkloadAPI)
    (ctx : Context) (client : Handle) (principal socketPath : String)
    (audience : List String) (a : String) (haud : audience.head? = some a) :
    (∀ cause, api.NewJWTSource (WithTimeout now ctx Second) socketPath = .error cause →
      clientCalls
          (handleJWTTokenRefreshEvent now api ctx client principal socketPath audience).trace
        = [.SetOAuthBearerTokenFailure ("unable to create JWTSource: " ++ cause)] ∧
      deliveredTokens
          (handleJWTTokenRefreshEvent now api ctx client principal socketPath audience).trace
        = [] ∧
      "unable to create JWTSource: " ++ cause
        = "unable to create" ++ (" JWTSource: " ++ cause)) ∧
    (∀ jwtSource cause,
      api.NewJWTSource (WithTimeout now ctx Second) socketPath = .ok jwtSource →
      jwtSource.FetchJWTSVID (WithTimeout now ctx Second)
        { Audience := a, ExtraAudiences := [], Subject := "" } = .error cause →
      clientCalls
          (handleJWTTokenRefreshEvent now api ctx client principal socketPath audience).trace
        = [.SetOAuthBearerTokenFailure ("unable to fetch JWT SVID: " ++ cause)] ∧
      deliveredTokens
          (handleJWTTokenRefreshEvent now api ctx client principal socketPath audience).trace
        = []) := by
  obtain ⟨rest, rfl⟩ := eq_cons_of_head? haud
  constructor
  · intro cause hnew
    rw [handle_of_retrieve_error now api ctx client principal socketPath (a :: rest) _ _ _
      (retrieveJWTToken_of_create_error now api ctx principal socketPath (a :: rest) cause hnew)]
    refine ⟨rfl, rfl, ?_⟩
    rw [← String.append_assoc]
    rfl
  · intro jwtSource cause hnew hfetch
    rw [handle_of_retrieve_error now api ctx client principal socketPath (a :: rest) _ _ _
      (retrieveJWTToken_of_fetch_error now api ctx principal socketPath a rest jwtSource cause
        hnew hfetch)]
    exact ⟨rfl, rfl⟩

/-- Scenario B of the spec, an instance of C2: the connection is refused, or
the source exists and the provider declines the request. -/
theorem handle_provider_failure_reported_once_witness :
    clientCalls
        (handleJWTTokenRefreshEvent 0 (unreachableAPI "connection refused") Background
          acceptingClient "svc-a" "/tmp/agent.sock" ["aud1", "aud2"]).trace
      = [.SetOAuthBearerTokenFailure "unable to create JWTSource: connection refused"] ∧
    clientCalls
        (handleJWTTokenRefreshEvent 0 (failingFetchAPI "attestation rejected") Background
          acceptingClient "svc-a" "/tmp/agent.sock" ["aud1", "aud2"]).trace
      = [.SetOAuthBearerTokenFailure "unable to fetch JWT SVID: attestation rejected"] :=
  ⟨((handle_provider_failure_reported_once 0 (unreachableAPI "connection refused")
      Background acceptingClient "svc-a" "/tmp/agent.sock" ["aud1", "aud2"] "aud1" rfl).1
      "connection refused" rfl).1,
   ((handle_provider_failure_reported_once 0 (failingFetchAPI "attestation rejected")
      Background acceptingClient "svc-a" "/tmp/agent.sock" ["aud1", "aud2"] "aud1" rfl).2
      _ "attestation rejected" rfl rfl).1⟩

/-- C3, the code at a failing provider: in the refresh case of `main`, when
creating the JWT source fails, and also when the source exists and the fetch
fails, the handler reports the failure to the client and then does not return:
the deferred call of the nil closer panics. -/
theorem handle_provider_failure_panics :
    (mainRefreshCase 0 (unreachableAPI "connection refused") acceptingClient
        "svc-a" "/tmp/agent.sock").outcome
      = .panicked "runtime error: invalid memory address or nil pointer dereference" ∧
    clientCalls (mainRefreshCase 0 (unreachableAPI "connection refused") acceptingClient
        "svc-a" "/tmp/agent.sock").trace
      = [.SetOAuthBearerTokenFailure "unable to create JWTSource: connection refused"] ∧
    (mainRefreshCase 0 (failingFetchAPI "attestation rejected") acceptingClient
        "svc-a" "/tmp/agent.sock").outcome
      = .panicked "runtime error: invalid memory address or nil pointer dereference" := by
  decide

/-- C4, the code at a provider that issues a credential: in the refresh case
of `main` the source is closed twice, once by the deferred `jwtSource.Close()`
of `retrieveJWTToken` and once more by the deferred `closer()` of the handler;
when the fetch fails it is closed once. -/
theorem handle_success_closes_twice :
    (mainRefreshCase 0 (issuingAPI "tok123" (3600 * Second)) acceptingClient
        "svc-a" "/tmp/agent.sock").trace
      = [.Stderr "Token refresh\n",
         .NewJWTSource ⟨some Second⟩ "/tmp/agent.sock",
         .FetchJWTSVID ⟨some Second⟩ ⟨"audience1", [], ""⟩,
         .Close, .cancel,
         .SetOAuthBearerToken ⟨"tok123", 3600 * Second, "svc-a", extensions⟩,
         .Close] ∧
    closeCount (mainRefreshCase 0 (issuingAPI "tok123" (3600 * Second)) acceptingClient
        "svc-a" "/tmp/agent.sock").trace = 2 ∧
    closeCount (mainRefreshCase 0 (failingFetchAPI "context deadline exceeded")
        acceptingClient "svc-a" "/tmp/agent.sock").trace = 1 := by
  decide

/-- C5 fails as stated: with an empty audience list and a provider that can be
reached, `workloadapi.NewJWTSource` is called, and the run ends in an index
fault, not in a returned error. -/
theorem retrieveJWTToken_empty_audience_calls_provider :
    providerCalls (retrieveJWTToken 0 (issuingAPI "tok123" (3600 * Second)) Background
        "svc-a" "/tmp/agent.sock" []).trace
      = [.NewJWTSource ⟨some Second⟩ "/tmp/agent.sock"] ∧
    (retrieveJWTToken 0 (issuingAPI "tok123" (3600 * Second)) Background
        "svc-a" "/tmp/agent.sock" []).outcome
      = .panicked "runtime error: index out of range [0] with length 0" := by
  decide

/-- C5 as amended: given an empty audience list, `retrieveJWTToken` checks
nothing before it turns to the provider: its first call is
`workloadapi.NewJWTSource`, with the one-second context and the socket path;
`FetchJWTSVID` is never called; and when creating the source fails, the
function returns the `unable to create JWTSource: ` error with the zero token
and a nil closer. -/
theorem retrieveJWTToken_empty_audience (now : Time) (api : WorkloadAPI) (ctx : Context)
    (principal socketPath : String) :
    (retrieveJWTToken now api ctx principal socketPath []).trace.head?
      = some (.NewJWTSource (WithTimeout now ctx Second) socketPath) ∧
    fetchRequests (retrieveJWTToken now api ctx principal socketPath []).trace = [] ∧
    ∀ cause, api.NewJWTSource (WithTimeout now ctx Second) socketPath = .error cause →
      (retrieveJWTToken now api ctx principal socketPath []).outcome
        = .returned
          (OAuthBearerToken.zero, none, some ("unable to create JWTSource: " ++ cause)) := by
  cases hnew : api.NewJWTSource (WithTimeout now ctx Second) socketPath with
  | error err =>
    rw [retrieveJWTToken_of_create_error now api ctx principal socketPath [] err hnew]
    refine ⟨rfl, rfl, ?_⟩
    intro cause hc
    cases hc
    rfl
  | ok jwtSource =>
    rw [retrieveJWTToken_of_empty_audience now api ctx principal socketPath jwtSource hnew]
    refine ⟨rfl, rfl, ?_⟩
    intro cause hc
    cases hc

/-- An instance of the amended C5: the connection is refused. -/
theorem retrieveJWTToken_empty_audience_witness :
    (retrieveJWTToken 0 (unreachableAPI "connection refused") Background
        "svc-a" "/tmp/agent.sock" []).outcome
      = .returned (OAuthBearerToken.zero, none,
          some "unable to create JWTSource: connection refused") :=
  (retrieveJWTToken_empty_audience 0 (unreachableAPI "connection refused") Background
    "svc-a" "/tmp/agent.sock").2.2 "connection refused" rfl

/-- C6: only the first element of the audience list is used: for two
non-empty audience lists with the same first element `a`, and the same
principal, socket path, clock and provider, `retrieveJWTToken` makes the same
calls and ends the same way (same token, same closer, same error); every
credential request it sends has `a` as its audience; and once the JWT source
is created, each of the two runs sends exactly one credential request, the
one with `Audience = a`. -/
theorem retrieveJWTToken_first_audience_only (now : Time) (api : WorkloadAPI)
    (ctx : Context) (principal socketPath : String) (audience1 audience2 : List String)
    (a : String) (hfirst : audience1.head? = some a)
    (hhead : audience1.head? = audience2.head?) :
    retrieveJWTToken now api ctx principal socketPath audience1
      = retrieveJWTToken now api ctx principal socketPath audience2 ∧
    (∀ params ∈ fetchRequests
        (retrieveJWTToken now api ctx principal socketPath audience1).trace,
      some params.Audience = audience1.head?) ∧
    ∀ jwtSource,
      api.NewJWTSource (WithTimeout now ctx Second) socketPath = .ok jwtSource →
      fetchRequests (retrieveJWTToken now api ctx principal socketPath audience1).trace
        = [{ Audience := a, ExtraAudiences := [], Subject := "" }] ∧
      fetchRequests (retrieveJWTToken now api ctx principal socketPath audience2).trace
        = [{ Audience := a, ExtraAudiences := [], Subject := "" }] := by
  obtain ⟨rest1, rfl⟩ := eq_cons_of_head? hfirst
  obtain ⟨rest2, rfl⟩ := eq_cons_of_head? (hhead.symm.trans hfirst)
  refine ⟨by simp only [retrieveJWTToken], ?_, ?_⟩
  · cases hnew : api.NewJWTSource (WithTimeout now ctx Second) socketPath with
    | error err =>
      rw [retrieveJWTToken_of_create_error now api ctx principal socketPath _ err hnew]
      intro params hp
      simp [fetchRequests] at hp
    | ok jwtSource =>
      cases hfetch : jwtSource.FetchJWTSVID (WithTimeout now ctx Second)
          { Audience := a, ExtraAudiences := [], Subject := "" } with
      | error err =>
        rw [retrieveJWTToken_of_fetch_error now api ctx principal socketPath a rest1
          jwtSource err hnew hfetch]
        intro params hp
        simp [fetchRequests] at hp
        simp [hp]
      | ok jwtSVID =>
        rw [retrieveJWTToken_of_fetch_ok now api ctx principal socketPath a rest1
          jwtSource jwtSVID hnew hfetch]
        intro params hp
        simp [fetchRequests] at hp
        simp [hp]
  · intro jwtSource hnew
    cases hfetch : jwtSource.FetchJWTSVID (WithTimeout now ctx Second)
        { Audience := a, ExtraAudiences := [], Subject := "" } with
    | error err =>
      rw [retrieveJWTToken_of_fetch_error now api ctx principal socketPath a rest1
          jwtSource err hnew hfetch,
        retrieveJWTToken_of_fetch_error now api ctx principal socketPath a rest2
          jwtSource err hnew hfetch]
      exact ⟨rfl, rfl⟩
    | ok jwtSVID =>
      rw [retrieveJWTToken_of_fetch_ok now api ctx principal socketPath a rest1
          jwtSource jwtSVID hnew hfetch,
        retrieveJWTToken_of_fetch_ok now api ctx principal socketPath a rest2
          jwtSource jwtSVID hnew hfetch]
      exact ⟨rfl, rfl⟩

/-- An instance of C6: the lists `aud1, aud2` and `aud1, other, more` give the
same run, and each run sends the one request for `aud1`. -/
theorem retrieveJWTToken_first_audience_only_witness :
    retrieveJWTToken 0 (issuingAPI "tok123" (3600 * Second)) Background
        "svc-a" "/tmp/agent.sock" ["aud1", "aud2"]
      = retrieveJWTToken 0 (issuingAPI "tok123" (3600 * Second)) Background
        "svc-a" "/tmp/agent.sock" ["aud1", "other", "more"] ∧
    fetchRequests (retrieveJWTToken 0 (issuingAPI "tok123" (3600 * Second)) Background
        "svc-a" "/tmp/agent.sock" ["aud1", "aud2"]).trace
      = [{ Audience := "aud1", ExtraAudiences := [], Subject := "" }] ∧
    fetchRequests (retrieveJWTToken 0 (issuingAPI "tok123" (3600 * Second)) Background
        "svc-a" "/tmp/agent.sock" ["aud1", "other", "more"]).trace
      = [{ Audience := "aud1", ExtraAudiences := [], Subject := "" }] :=
  ⟨(retrieveJWTToken_first_audience_only 0 (issuingAPI "tok123" (3600 * Second)) Background
      "svc-a" "/tmp/agent.sock" ["aud1", "aud2"] ["aud1", "other", "more"] "aud1"
      rfl rfl).1,
   (retrieveJWTToken_first_audience_only 0 (issuingAPI "tok123" (3600 * Second)) Background
      "svc-a" "/tmp/agent.sock" ["aud1", "aud2"] ["aud1", "other", "more"] "aud1"
      rfl rfl).2.2 (issuingSource "tok123" (3600 * Second)) rfl⟩

/-- C7 fails as stated: the handler starts at instant 100, the provider issues
a credential that expired at instant 50, and the token with that expiry is
handed to the client. -/
theorem handle_delivers_expired_token :
    deliveredTokens
        (handleJWTTokenRefreshEvent 100 (issuingAPI "tok123" 50) Background acceptingClient
          "svc-a" "/tmp/agent.sock" ["aud1", "aud2"]).trace
      = [⟨"tok123", 50, "svc-a", extensions⟩] ∧
    ¬ ∀ token ∈ deliveredTokens
        (handleJWTTokenRefreshEvent 100 (issuingAPI "tok123" 50) Background acceptingClient
          "svc-a" "/tmp/agent.sock" ["aud1", "aud2"]).trace,
      (100 : Time) < token.Expiration := by
  decide

/-- C7 as amended: every token the handler hands to the client through
`SetOAuthBearerToken` carries, unchanged, the expiry of the credential that
`FetchJWTSVID` returned in this invocation; the handler compares it with no
clock, so the token's `Expiration` is after the start exactly when the
credential's expiry is. -/
theorem handle_delivered_token_expiry (now : Time) (api : WorkloadAPI) (ctx : Context)
    (client : Handle) (principal socketPath : String) (audience : List String) (a : String)
    (token : OAuthBearerToken)
    (haud : audience.head? = some a)
    (hdel : token ∈ deliveredTokens
      (handleJWTTokenRefreshEvent now api ctx client principal socketPath audience).trace) :
    ∃ jwtSource jwtSVID,
      api.NewJWTSource (WithTimeout now ctx Second) socketPath = .ok jwtSource ∧
      jwtSource.FetchJWTSVID (WithTimeout now ctx Second)
        { Audience := a, ExtraAudiences := [], Subject := "" } = .ok jwtSVID ∧
      token.Expiration = jwtSVID.Expiry ∧
      (now < token.Expiration ↔ now < jwtSVID.Expiry) := by
  obtain ⟨rest, rfl⟩ := eq_cons_of_head? haud
  cases hnew : api.NewJWTSource (WithTimeout now ctx Second) socketPath with
  | error err =>
    rw [handle_of_retrieve_error now api ctx client principal socketPath (a :: rest) _ _ _
      (retrieveJWTToken_of_create_error now api ctx principal socketPath (a :: rest) err
        hnew)] at hdel
    simp [deliveredTokens] at hdel
  | ok jwtSource =>
    cases hfetch : jwtSource.FetchJWTSVID (WithTimeout now ctx Second)
        { Audience := a, ExtraAudiences := [], Subject := "" } with
    | error err =>
      rw [handle_of_retrieve_error now api ctx client principal socketPath (a :: rest) _ _ _
        (retrieveJWTToken_of_fetch_error now api ctx principal socketPath a rest jwtSource
          err hnew hfetch)] at hdel
      simp [deliveredTokens] at hdel
    | ok jwtSVID =>
      rw [handle_of_retrieve_ok now api ctx client principal socketPath (a :: rest) _ _ _
        (retrieveJWTToken_of_fetch_ok now api ctx principal socketPath a rest jwtSource
          jwtSVID hnew hfetch)] at hdel
      have htok : token = ⟨jwtSVID.Marshal, jwtSVID.Expiry, principal, extensions⟩ := by
        cases hset : client.SetOAuthBearerToken
            ⟨jwtSVID.Marshal, jwtSVID.Expiry, principal, extensions⟩ with
        | none => simpa [deliveredTokens, JWTSource.Close, hset] using hdel
        | some setTokenError => simpa [deliveredTokens, JWTSource.Close, hset] using hdel
      subst htok
      exact ⟨jwtSource, jwtSVID, rfl, hfetch, rfl, Iff.rfl⟩

/-- An instance of the amended C7: the credential expires 3600 s after the
start, and so does the token handed to the client. -/
theorem handle_delivered_token_expiry_witness :
    ∃ jwtSource jwtSVID,
      (issuingAPI "tok123" (3600 * Second)).NewJWTSource (WithTimeout 0 Background Second)
        "/tmp/agent.sock" = .ok jwtSource ∧
      jwtSource.FetchJWTSVID (WithTimeout 0 Background Second)
        { Audience := "aud1", ExtraAudiences := [], Subject := "" } = .ok jwtSVID ∧
      (3600 * Second : Time) = jwtSVID.Expiry ∧
      ((0 : Time) < 3600 * Second ↔ 0 < jwtSVID.Expiry) :=
  handle_delivered_token_expiry 0 (issuingAPI "tok123" (3600 * Second)) Background
    acceptingClient "svc-a" "/tmp/agent.sock" ["aud1", "aud2"] "aud1"
    ⟨"tok123", 3600 * Second, "svc-a", extensions⟩ rfl (by decide)

/-- C8 fails as stated: the invocations for the principals `svc-a` and `svc-b`
send the provider the same credential request, which names the audience
`aud1` and no subject. -/
theorem retrieveJWTToken_request_ignores_principal :
    "svc-a" ≠ "svc-b" ∧
    providerCalls (retrieveJWTToken 0 (issuingAPI "tok123" (3600 * Second)) Background
        "svc-a" "/tmp/agent.sock" ["aud1", "aud2"]).trace
      = providerCalls (retrieveJWTToken 0 (issuingAPI "tok123" (3600 * Second)) Background
        "svc-b" "/tmp/agent.sock" ["aud1", "aud2"]).trace ∧
    fetchRequests (retrieveJWTToken 0 (issuingAPI "tok123" (3600 * Second)) Background
        "svc-a" "/tmp/agent.sock" ["aud1", "aud2"]).trace
      = [{ Audience := "aud1", ExtraAudiences := [], Subject := "" }] ∧
    fetchRequests (retrieveJWTToken 0 (issuingAPI "tok123" (3600 * Second)) Background
        "svc-b" "/tmp/agent.sock" ["aud1", "aud2"]).trace
      = [{ Audience := "aud1", ExtraAudiences := [], Subject := "" }] := by
  decide

/-- C8 as amended: for every principal and non-empty audience list, the
credential request `retrieveJWTToken` sends, once the source exists, is made
for the first audience element alone: the parameters of `FetchJWTSVID` have
`Audience` set to it and every other field at its zero value; the principal is
no part of the request, so invocations that differ only in the principal make
the same calls on the provider.  The principal appears only in the `Principal`
field of the token returned on success: that token is the credential's
serialized form, the credential's expiry, the principal and the fixed
extensions, returned with the closer of the source and a nil error; when the
fetch fails, the result (zero token, nil closer, fetch error) holds no
principal at all. -/
theorem retrieveJWTToken_request_audience_only (now : Time) (api : WorkloadAPI)
    (ctx : Context) (principal principal2 socketPath : String) (audience : List String)
    (a : String) (jwtSource : JWTSource)
    (haud : audience.head? = some a)
    (hnew : api.NewJWTSource (WithTimeout now ctx Second) socketPath = .ok jwtSource) :
    fetchRequests (retrieveJWTToken now api ctx principal socketPath audience).trace
      = [{ Audience := a, ExtraAudiences := [], Subject := "" }] ∧
    (retrieveJWTToken now api ctx principal socketPath audience).trace
      = (retrieveJWTToken now api ctx principal2 socketPath audience).trace ∧
    (∀ jwtSVID,
      jwtSource.FetchJWTSVID (WithTimeout now ctx Second)
        { Audience := a, ExtraAudiences := [], Subject := "" } = .ok jwtSVID →
      (retrieveJWTToken now api ctx principal socketPath audience).outcome
        = .returned
          ({ TokenValue := jwtSVID.Marshal, Expiration := jwtSVID.Expiry,
             Principal := principal, Extensions := extensions },
           some jwtSource.Close, none) ∧
      (retrieveJWTToken now api ctx principal2 socketPath audience).outcome
        = .returned
          ({ TokenValue := jwtSVID.Marshal, Expiration := jwtSVID.Expiry,
             Principal := principal2, Extensions := extensions },
           some jwtSource.Close, none)) ∧
    (∀ cause,
      jwtSource.FetchJWTSVID (WithTimeout now ctx Second)
        { Audience := a, ExtraAudiences := [], Subject := "" } = .error cause →
      (retrieveJWTToken now api ctx principal socketPath audience).outcome
        = .returned
          (OAuthBearerToken.zero, none, some ("unable to fetch JWT SVID: " ++ cause)) ∧
      (retrieveJWTToken now api ctx principal2 socketPath audience).outcome
        = (retrieveJWTToken now api ctx principal socketPath audience).outcome) := by
  obtain ⟨rest, rfl⟩ := eq_cons_of_head? haud
  cases hfetch : jwtSource.FetchJWTSVID (WithTimeout now ctx Second)
      { Audience := a, ExtraAudiences := [], Subject := "" } with
  | error err =>
    rw [retrieveJWTToken_of_fetch_error now api ctx principal socketPath a rest jwtSource err
        hnew hfetch,
      retrieveJWTToken_of_fetch_error now api ctx principal2 socketPath a rest jwtSource err
        hnew hfetch]
    refine ⟨rfl, rfl, ?_, ?_⟩
    · intro jwtSVID h
      cases h
    · intro cause h
      cases h
      exact ⟨rfl, rfl⟩
  | ok jwtSVID =>
    rw [retrieveJWTToken_of_fetch_ok now api ctx principal socketPath a rest jwtSource
        jwtSVID hnew hfetch,
      retrieveJWTToken_of_fetch_ok now api ctx principal2 socketPath a rest jwtSource
        jwtSVID hnew hfetch]
    refine ⟨rfl, rfl, ?_, ?_⟩
    · intro jwtSVID2 h
      cases h
      exact ⟨rfl, rfl⟩
    · intro cause h
      cases h

/-- An instance of the amended C8: principals `svc-a` and `svc-b`, audience
`aud1, aud2`: one request for `aud1`, and two tokens that differ in
`Principal` alone. -/
theorem retrieveJWTToken_request_audience_only_witness :
    fetchRequests (retrieveJWTToken 0 (issuingAPI "tok123" (3600 * Second)) Background
        "svc-a" "/tmp/agent.sock" ["aud1", "aud2"]).trace
      = [{ Audience := "aud1", ExtraAudiences := [], Subject := "" }] ∧
    (retrieveJWTToken 0 (issuingAPI "tok123" (3600 * Second)) Background
        "svc-a" "/tmp/agent.sock" ["aud1", "aud2"]).outcome
      = .returned (⟨"tok123", 3600 * Second, "svc-a", extensions⟩,
          some (issuingSource "tok123" (3600 * Second)).Close, none) ∧
    (retrieveJWTToken 0 (issuingAPI "tok123" (3600 * Second)) Background
        "svc-b" "/tmp/agent.sock" ["aud1", "aud2"]).outcome
      = .returned (⟨"tok123", 3600 * Second, "svc-b", extensions⟩,
          some (issuingSource "tok123" (3600 * Second)).Close, none) :=
  ⟨(retrieveJWTToken_request_audience_only 0 (issuingAPI "tok123" (3600 * Second))
      Background "svc-a" "svc-b" "/tmp/agent.sock" ["aud1", "aud2"] "aud1"
      (issuingSource "tok123" (3600 * Second)) rfl rfl).1,
   (retrieveJWTToken_request_audience_only 0 (issuingAPI "tok123" (3600 * Second))
      Background "svc-a" "svc-b" "/tmp/agent.sock" ["aud1", "aud2"] "aud1"
      (issuingSource "tok123" (3600 * Second)) rfl rfl).2.2.1 ⟨"tok123", 3600 * Second⟩ rfl⟩

/-- C9 fails as stated: when the source exists and `FetchJWTSVID` fails with
`context deadline exceeded`, the error returned is the `unable to fetch JWT
SVID` one; it is not the error returned when creating the source fails with
the same cause. -/
theorem retrieveJWTToken_fetch_deadline_is_fetch_error :
    (retrieveJWTToken 0 (failingFetchAPI "context deadline exceeded") Background
        "svc-a" "/tmp/agent.sock" ["aud1", "aud2"]).outcome
      = .returned (OAuthBearerToken.zero, none,
          some "unable to fetch JWT SVID: context deadline exceeded") ∧
    (retrieveJWTToken 0 (unreachableAPI "context deadline exceeded") Background
        "svc-a" "/tmp/agent.sock" ["aud1", "aud2"]).outcome
      = .returned (OAuthBearerToken.zero, none,
          some "unable to create JWTSource: context deadline exceeded") ∧
    (retrieveJWTToken 0 (failingFetchAPI "context deadline exceeded") Background
        "svc-a" "/tmp/agent.sock" ["aud1", "aud2"]).outcome
      ≠ (retrieveJWTToken 0 (unreachableAPI "context deadline exceeded") Background
        "svc-a" "/tmp/agent.sock" ["aud1", "aud2"]).outcome := by
  decide

/-- C9 as amended: when the JWT source is created and `FetchJWTSVID` returns an
error, a deadline-exceeded error included, `retrieveJWTToken` returns the
fetch failure, `unable to fetch JWT SVID: ` followed by the cause, with the
zero token and a nil closer; the failure is named after the step that failed,
whatever the cause. -/
theorem retrieveJWTToken_fetch_error (now : Time) (api : WorkloadAPI) (ctx : Context)
    (principal socketPath : String) (audience : List String) (a : String)
    (jwtSource : JWTSource) (cause : GoError)
    (haud : audience.head? = some a)
    (hnew : api.NewJWTSource (WithTimeout now ctx Second) socketPath = .ok jwtSource)
    (hfetch : jwtSource.FetchJWTSVID (WithTimeout now ctx Second)
      { Audience := a, ExtraAudiences := [], Subject := "" } = .error cause) :
    (retrieveJWTToken now api ctx principal socketPath audience).outcome
      = .returned (OAuthBearerToken.zero, none, some ("unable to fetch JWT SVID: " ++ cause)) := by
  obtain ⟨rest, rfl⟩ := eq_cons_of_head? haud
  rw [retrieveJWTToken_of_fetch_error now api ctx principal socketPath a rest jwtSource cause
    hnew hfetch]

/-- An instance of the amended C9: the deadline is exceeded during the fetch. -/
theorem retrieveJWTToken_fetch_error_witness :
    (retrieveJWTToken 0 (failingFetchAPI "context deadline exceeded") Background
        "svc-a" "/tmp/agent.sock" ["aud1", "aud2"]).outcome
      = .returned (OAuthBearerToken.zero, none,
          some ("unable to fetch JWT SVID: " ++ "context deadline exceeded")) :=
  retrieveJWTToken_fetch_error 0 (failingFetchAPI "context deadline exceeded") Background
    "svc-a" "/tmp/agent.sock" ["aud1", "aud2"] "aud1"
    { FetchJWTSVID := fun _ _ => .error "context deadline exceeded", CloseResult := none }
    "context deadline exceeded" rfl rfl rfl

/-- C10: when `retrieveJWTToken` succeeds with token `t`, the calls of the
handler on the client are: `SetOAuthBearerToken` once, with `t`; then, if and
only if that call returned an error, `SetOAuthBearerTokenFailure` once, with
the text of that error. -/
theorem handle_success_client_calls (now : Time) (api : WorkloadAPI) (ctx : Context)
    (client : Handle) (principal socketPath : String) (audience : List String)
    (t : OAuthBearerToken) (closer : Option GoFunc)
    (hret : (retrieveJWTToken now api ctx principal socketPath audience).outcome
      = .returned (t, closer, none)) :
    clientCalls
        (handleJWTTokenRefreshEvent now api ctx client principal socketPath audience).trace
      = match client.SetOAuthBearerToken t with
        | none => [.SetOAuthBearerToken t]
        | some setTokenError =>
          [.SetOAuthBearerToken t, .SetOAuthBearerTokenFailure setTokenError] := by
  cases hnew : api.NewJWTSource (WithTimeout now ctx Second) socketPath with
  | error err =>
    rw [retrieveJWTToken_of_create_error now api ctx principal socketPath audience err hnew]
      at hret
    simp at hret
  | ok jwtSource =>
    cases audience with
    | nil =>
      rw [retrieveJWTToken_of_empty_audience now api ctx principal socketPath jwtSource hnew]
        at hret
      simp at hret
    | cons a rest =>
      cases hfetch : jwtSource.FetchJWTSVID (WithTimeout now ctx Second)
          { Audience := a, ExtraAudiences := [], Subject := "" } with
      | error err =>
        rw [retrieveJWTToken_of_fetch_error now api ctx principal socketPath a rest jwtSource
          err hnew hfetch] at hret
        simp at hret
      | ok jwtSVID =>
        have hrun := retrieveJWTToken_of_fetch_ok now api ctx principal socketPath a rest
          jwtSource jwtSVID hnew hfetch
        rw [hrun] at hret
        simp only [Outcome.returned.injEq, Prod.mk.injEq] at hret
        obtain ⟨ht, -, -⟩ := hret
        subst ht
        rw [handle_of_retrieve_ok now api ctx client principal socketPath (a :: rest) _ _ _
          hrun]
        cases hset : client.SetOAuthBearerToken
            ⟨jwtSVID.Marshal, jwtSVID.Expiry, principal, extensions⟩ with
        | none => simp [clientCalls, JWTSource.Close, hset]
        | some setTokenError => simp [clientCalls, JWTSource.Close, hset]

/-- Two instances of C10: a client that accepts the token, and a client that
refuses it with `token rejected`. -/
theorem handle_success_client_calls_witness :
    clientCalls
        (handleJWTTokenRefreshEvent 0 (issuingAPI "tok123" (3600 * Second)) Background
          acceptingClient "svc-a" "/tmp/agent.sock" ["aud1", "aud2"]).trace
      = [.SetOAuthBearerToken ⟨"tok123", 3600 * Second, "svc-a", extensions⟩] ∧
    clientCalls
        (handleJWTTokenRefreshEvent 0 (issuingAPI "tok123" (3600 * Second)) Background
          (refusingClient "token rejected") "svc-a" "/tmp/agent.sock" ["aud1", "aud2"]).trace
      = [.SetOAuthBearerToken ⟨"tok123", 3600 * Second, "svc-a", extensions⟩,
         .SetOAuthBearerTokenFailure "token rejected"] :=
  ⟨handle_success_client_calls 0 (issuingAPI "tok123" (3600 * Second)) Background
      acceptingClient "svc-a" "/tmp/agent.sock" ["aud1", "aud2"]
      ⟨"tok123", 3600 * Second, "svc-a", extensions⟩
      (some (issuingSource "tok123" (3600 * Second)).Close) rfl,
   handle_success_client_calls 0 (issuingAPI "tok123" (3600 * Second)) Background
      (refusingClient "token rejected") "svc-a" "/tmp/agent.sock" ["aud1", "aud2"]
      ⟨"tok123", 3600 * Second, "svc-a", extensions⟩
      (some (issuingSource "tok123" (3600 * Second)).Close) rfl⟩

end SpireConsumerExample
